import Mathlib

/-!
# Verification of `ext/mixed/js/core.js` (yomitan support utilities)

A shallow embedding of the utility module: error (de)serialization
(`errorToJson` / `jsonToError`), the iterable-conversion helper
(`toIterable`), the cancellable timeout promise (`promiseTimeout`), the
async regex replace (`stringReplaceAsync`), the `EventDispatcher`
publish/subscribe class and the `Yomichan` message-routing singleton.

Modelling conventions:
* A JS `Map` is embedded as a function `E → Option α` (`Map.get` is
  application; `Map.set` / `Map.delete` are pointwise updates).
* Listeners are opaque identifiers compared by identity (`DecidableEq L`);
  invoking a listener is recorded in an observable trace of
  `(listener, details)` pairs instead of running an effect.
* A JS function return of `false` is `some false`; falling off the end of
  a function body (implicit `undefined`) is `none`; `jsTruthy` decides
  truthiness of such a value.
* Thrown exceptions are `Except` errors; a total Lean function models a
  JS path that cannot throw.
-/

namespace Core

/-! ## Error handling: `errorToJson` / `jsonToError` -/

/-- An error-like JS object whose `name`, `message` and `stack` fields are
populated (as strings).  `errorToJson` reads exactly these three fields. -/
structure JsError where
  name : String
  message : String
  stack : String
deriving DecidableEq, Repr

/-- The serialized error envelope `{name, message, stack}`. -/
structure ErrorJson where
  name : String
  message : String
  stack : String
deriving DecidableEq, Repr

/-- `errorToJson(error)` returns `{name: error.name, message: error.message,
stack: error.stack}`. -/
def errorToJson (error : JsError) : ErrorJson :=
  { name := error.name, message := error.message, stack := error.stack }

/-- `jsonToError(jsonError)`: `new Error(jsonError.message)` creates an error
whose `message` field is the given (string) message; the code then assigns
`error.name = jsonError.name` and `error.stack = jsonError.stack`. -/
def jsonToError (jsonError : ErrorJson) : JsError :=
  { name := jsonError.name, message := jsonError.message, stack := jsonError.stack }

/-! ## JS return values -/

/-- A JS boolean-or-undefined return value: `some b` is an explicit
`return b`, `none` is the implicit `undefined` of a body with no final
`return`. -/
abbrev JsRet := Option Bool

/-- JS truthiness of a boolean-or-undefined value: `undefined` is falsy. -/
def jsTruthy : JsRet → Bool
  | none => false
  | some b => b

/-! ## Map model -/

/-- `Map.prototype.get`: application.  `Map.prototype.set` as a pointwise
update. -/
def mapSet [DecidableEq E] (m : E → Option α) (k : E) (v : α) : E → Option α :=
  fun k' => if k' = k then some v else m k'

/-- `Map.prototype.delete` as a pointwise update. -/
def mapDelete [DecidableEq E] (m : E → Option α) (k : E) : E → Option α :=
  fun k' => if k' = k then none else m k'

/-! ## `EventDispatcher` -/

/-- The `EventDispatcher` class: its single field `_eventMap` maps event
names to the (mutable) array of registered callbacks. -/
structure EventDispatcher (E L : Type) where
  eventMap : E → Option (List L)

/-- `new EventDispatcher()`: `this._eventMap = new Map()`. -/
def EventDispatcher.empty : EventDispatcher E L :=
  ⟨fun _ => none⟩

/-- `trigger(eventName, details)`: looks up the callback array; if it is
`undefined`, returns `false`; otherwise calls each callback in array order
with `details` (recorded as the first component) and falls off the end
(returns `undefined`, i.e. `none`). -/
def EventDispatcher.trigger (d : EventDispatcher E L) (eventName : E) (details : D) :
    List (L × D) × JsRet :=
  match d.eventMap eventName with
  | none => ([], some false)
  | some callbacks => (callbacks.map (fun callback => (callback, details)), none)

/-- `on(eventName, callback)`: if no array is registered, stores a fresh
empty array; then pushes `callback` onto the stored array (the push acts on
the aliased array inside the map, so the net effect is appending). -/
def EventDispatcher.on [DecidableEq E] (d : EventDispatcher E L) (eventName : E) (callback : L) :
    EventDispatcher E L :=
  match d.eventMap eventName with
  | none => ⟨mapSet d.eventMap eventName [callback]⟩
  | some callbacks => ⟨mapSet d.eventMap eventName (callbacks ++ [callback])⟩

/-- The `off` scan-and-splice loop: remove the first occurrence (by
identity) of `callback`, returning `none` when no occurrence exists. -/
def removeFirst [DecidableEq L] : List L → L → Option (List L)
  | [], _ => none
  | c :: rest, callback =>
    if c = callback then some rest
    else (removeFirst rest callback).map (fun r => c :: r)

/-- `off(eventName, callback)`: if the callback array is `undefined`,
returns `true` (note: the code's literal return value on this path);
otherwise splices out the first occurrence of `callback` and returns
`true`, deleting the event's entry when the array becomes empty; returns
`false` when no occurrence was found. -/
def EventDispatcher.off [DecidableEq E] [DecidableEq L] (d : EventDispatcher E L)
    (eventName : E) (callback : L) : EventDispatcher E L × Bool :=
  match d.eventMap eventName with
  | none => (d, true)
  | some callbacks =>
    match removeFirst callbacks callback with
    | none => (d, false)
    | some callbacks' =>
      if callbacks' = [] then (⟨mapDelete d.eventMap eventName⟩, true)
      else (⟨mapSet d.eventMap eventName callbacks'⟩, true)

/-- The invariant of claim C3: no event name is mapped to an empty array. -/
def EventDispatcher.NoEmptyEntry (d : EventDispatcher E L) : Prop :=
  ∀ e : E, d.eventMap e ≠ some []

/-! ## `toIterable` -/

/-- The value of an object's `length` property as classified by
`typeof length === 'number' && Number.isFinite(length)`. -/
inductive LengthVal where
  /-- a finite number (the element-collecting loop runs `max 0 n` times) -/
  | numFinite (n : Int)
  /-- `NaN` or `±Infinity` -/
  | numNonFinite
  /-- present but not a number -/
  | nonNumber
deriving DecidableEq, Repr

/-- The inputs `toIterable` distinguishes.  `vIterObj` is any object with a
`Symbol.iterator` property (arrays, strings-as-objects, Maps, ...);
`vObj length` is an object without one, carrying the classification of its
`length` property (`none` when the property is absent, i.e. `undefined`). -/
inductive JSValue where
  | vNull
  | vUndefined
  | vBool (b : Bool)
  | vNumber (n : Int)
  /-- primitive strings carry `Symbol.iterator` -/
  | vString (s : String)
  | vIterObj
  | vObj (length : Option LengthVal)
deriving DecidableEq, Repr

/-- A thrown JS exception: a `TypeError` raised by the runtime
(property access on `null`/`undefined`) or an explicit `new Error(msg)`. -/
inductive JSErr where
  | typeError (msg : String)
  | error (msg : String)
deriving DecidableEq, Repr

/-- The value `toIterable` returns: the input itself, or a freshly built
array of the input's first `count` indexed elements (the elements
themselves are not tracked: no claim mentions them). -/
inductive IterResult where
  | same
  | arrayOf (count : Nat)
deriving DecidableEq, Repr

/-- `toIterable(value)` (with `Symbol` defined, as in every browser
environment this file targets): evaluating `value[Symbol.iterator]` throws
a `TypeError` when `value` is `null`/`undefined`; values exposing
`Symbol.iterator` are returned as-is; a non-null object whose `length` is
a finite number is copied element-by-element into a new array; everything
else throws `new Error('Could not convert to iterable')`. -/
def toIterable (value : JSValue) : Except JSErr IterResult :=
  match value with
  | .vNull => .error (.typeError "Cannot read properties of null")
  | .vUndefined => .error (.typeError "Cannot read properties of undefined")
  | .vString _ => .ok .same
  | .vIterObj => .ok .same
  | .vBool _ => .error (.error "Could not convert to iterable")
  | .vNumber _ => .error (.error "Could not convert to iterable")
  | .vObj length =>
    match length with
    | some (.numFinite n) => .ok (.arrayOf n.toNat)
    | _ => .error (.error "Could not convert to iterable")

/-- "Natively iterable" in the spec's sense: the value exposes
`Symbol.iterator`. -/
def nativelyIterable : JSValue → Bool
  | .vString _ => true
  | .vIterObj => true
  | _ => false

/-- "Array-like" in the spec's sense: an object with a finite numeric
`length`. -/
def arrayLike : JSValue → Bool
  | .vObj (some (.numFinite _)) => true
  | _ => false

/-- `null` / `undefined`, on which any property access throws. -/
def isNullish : JSValue → Bool
  | .vNull => true
  | .vUndefined => true
  | _ => false

/-! ## `promiseTimeout` -/

/-- The shape of the promise `promiseTimeout` returns, projected onto its
statable attributes: whether it was created already settled
(`Promise.resolve(resolveValue)`), and whether the early-resolve /
early-reject closures were attached to it as the `resolve` / `reject`
properties.  Timer dynamics are outside the embedding. -/
structure TimeoutPromise (α : Type) where
  /-- `some v` when the fast path returned `Promise.resolve(v)` -/
  settledValue : Option α
  /-- `promise.resolve = resolve` was executed -/
  hasResolveProp : Bool
  /-- `promise.reject = reject` was executed -/
  hasRejectProp : Bool
deriving DecidableEq, Repr

/-- `promiseTimeout(delay, resolveValue)`: when `delay <= 0` it returns the
bare `Promise.resolve(resolveValue)`; otherwise it builds a pending promise,
arms the timer, and attaches the `resolve` / `reject` closures as properties
on the returned promise. -/
def promiseTimeout (delay : Int) (resolveValue : α) : TimeoutPromise α :=
  if delay ≤ 0 then
    { settledValue := some resolveValue, hasResolveProp := false, hasRejectProp := false }
  else
    { settledValue := none, hasResolveProp := true, hasRejectProp := true }

/-! ## `stringReplaceAsync` -/

/-- One successful `regex.exec(str)` result: the match position
(`match.index`), the matched text (`match[0]`), the capture groups
(`match[1..]`), and the value `regex.lastIndex` holds afterwards. -/
structure RegexMatch where
  index : Nat
  matched : String
  groups : List String
  nextLastIndex : Nat
deriving DecidableEq, Repr

/-- The argument tuple `(...match, match.index, str)` passed to the
replacer. -/
structure ReplacerArgs where
  matched : String
  groups : List String
  index : Nat
  str : String
deriving DecidableEq, Repr

/-- JS `String.prototype.substring(a, b)`: clamps both indices to
`[0, length]` and swaps them when `a > b`. -/
def jsSubstring (s : String) (a b : Nat) : String :=
  let len := s.length
  let a' := min a len
  let b' := min b len
  String.mk ((s.toList.drop (min a' b')).take (max a' b' - min a' b'))

/-- The `while ((match = regex.exec(str)) !== null)` loop of
`stringReplaceAsync`, with the successive `exec` results supplied as a
list (a global regex yields each match once, then `null`).  Returns the
accumulated `parts`, the replacer invocations in order, and the final
`index`. -/
def sraLoop (str : String) (replacer : ReplacerArgs → String) :
    List RegexMatch → Nat → List String × List ReplacerArgs × Nat
  | [], index => ([], [], index)
  | m :: rest, index =>
    let args : ReplacerArgs := ⟨m.matched, m.groups, m.index, str⟩
    let (parts, calls, final) := sraLoop str replacer rest m.nextLastIndex
    (jsSubstring str index m.index :: replacer args :: parts, args :: calls, final)

/-- `stringReplaceAsync(str, regex, replacer)`: runs the exec loop; when no
match was found (`parts.length === 0`) resolves to `str` itself; otherwise
appends the tail of `str` and resolves to the concatenation of all parts.
The second component records every replacer invocation, in order. -/
def stringReplaceAsync (str : String) (execResults : List RegexMatch)
    (replacer : ReplacerArgs → String) : String × List ReplacerArgs :=
  let (parts, calls, index) := sraLoop str replacer execResults 0
  if parts = [] then (str, calls)
  else (String.join (parts ++ [jsSubstring str index str.length]), calls)

/-! ## The `Yomichan` message-routing singleton -/

/-- The `params` object of an inbound message, as far as the built-in
handlers inspect it: `_onMessageOptionsUpdate` destructures `{source}`
(`none` when the field is absent); `_onMessageGetUrl` ignores it. -/
structure MsgParams where
  source : Option String
deriving DecidableEq, Repr

/-- An inbound channel message `{action, params}`. -/
structure Message where
  action : String
  params : MsgParams
deriving DecidableEq, Repr

/-- The details payloads the router passes to `trigger`:
`{source}` for `optionsUpdate` and `{error}` for `orphaned`. -/
inductive LocalDetails where
  | optionsUpdateD (source : Option String)
  | orphanedD (error : ErrorJson)
deriving DecidableEq, Repr

/-- A built-in handler's return value: `{url}` from `_onMessageGetUrl`, or
the implicit `undefined` from `_onMessageOptionsUpdate`. -/
inductive HandlerResult where
  | urlResult (url : String)
  | undefinedResult
deriving DecidableEq, Repr

/-- The two entries of the fixed `_messageHandlers` map. -/
inductive HandlerTag where
  | getUrl
  | optionsUpdate
deriving DecidableEq, Repr

/-- `this._messageHandlers = new Map([['getUrl', ...], ['optionsUpdate',
...]])`, looked up by exact action name. -/
def messageHandlers (action : String) : Option HandlerTag :=
  if action = "getUrl" then some .getUrl
  else if action = "optionsUpdate" then some .optionsUpdate
  else none

/-- The `Yomichan` singleton: an `EventDispatcher` (via `extends` in the
source) whose event names are strings and whose listeners are opaque
identifiers. -/
structure Yomichan where
  dispatcher : EventDispatcher String Nat

/-- One observable step of `_onMessage`: a local listener invocation
performed by `trigger` inside a handler, or an invocation of the channel's
reply callback. -/
inductive RouterEvent where
  | listenerInvoked (callback : Nat) (details : LocalDetails)
  | callbackInvoked (result : HandlerResult)
deriving DecidableEq, Repr

/-- The outcome of one `_onMessage` call: the ordered trace of observable
steps, the handler's JS return value, and the router state afterwards. -/
structure OnMessageOutcome where
  trace : List RouterEvent
  returnValue : Bool
  state : Yomichan

/-- `_onMessageGetUrl()`: returns `{url: window.location.href}`; the
current location is supplied as `href`. -/
def Yomichan.onMessageGetUrl (href : String) : HandlerResult :=
  .urlResult href

/-- `_onMessageOptionsUpdate({source})`: calls
`this.trigger('optionsUpdate', {source})` (producing the listener
invocations) and falls off the end (`undefined`). -/
def Yomichan.onMessageOptionsUpdate (y : Yomichan) (params : MsgParams) :
    List (Nat × LocalDetails) × HandlerResult :=
  ((y.dispatcher.trigger "optionsUpdate" (.optionsUpdateD params.source)).1, .undefinedResult)

/-- `_onMessage({action, params}, sender, callback)`: looks up `action` in
the fixed handler table; when no handler exists, returns `false` at once
(no reply callback, no other effect).  Otherwise runs the handler
synchronously — any listener invocations it performs happen here — then
calls `callback(result)` and returns `false`. -/
def Yomichan.onMessage (y : Yomichan) (href : String) (msg : Message) : OnMessageOutcome :=
  match messageHandlers msg.action with
  | none => ⟨[], false, y⟩
  | some .getUrl =>
    ⟨[.callbackInvoked (Yomichan.onMessageGetUrl href)], false, y⟩
  | some .optionsUpdate =>
    let (calls, result) := y.onMessageOptionsUpdate msg.params
    ⟨calls.map (fun c => .listenerInvoked c.1 c.2) ++ [.callbackInvoked result], false, y⟩

/-- `triggerOrphaned(error)`: `this.trigger('orphaned', {error})`. -/
def Yomichan.triggerOrphaned (y : Yomichan) (error : ErrorJson) :
    List (Nat × LocalDetails) × JsRet :=
  y.dispatcher.trigger "orphaned" (.orphanedD error)

/-- `toIterable value` returns normally (does not throw). -/
def returnsNormally (value : JSValue) : Bool :=
  match toIterable value with
  | .ok _ => true
  | .error _ => false

end Core

namespace Core

/-! ## Claim theorems -/

/-- C1: with one listener registered for `"e"`, `trigger("e", 7)` does
invoke the listener with the details, but the call returns the implicit
`undefined` — a falsy value (`jsTruthy none = false`) — instead of the
true-equivalent "notified" value the claim (and the explicit `return
false` of the zero-listener branch) calls for. -/
theorem trigger_notifies_but_returns_undefined :
    ((EventDispatcher.empty : EventDispatcher String Nat).on "e" 0).trigger "e" (7 : Nat) =
      ([(0, 7)], none) ∧ jsTruthy none = false := by
  refine ⟨?_, rfl⟩
  simp [EventDispatcher.empty, EventDispatcher.on, EventDispatcher.trigger, mapSet]

/-- C2: `off` on an event name with no map entry returns `true`
(true-equivalent), both on a fresh dispatcher and on a second `off` after
the first removed the last listener — while `off` on an existing entry
that lacks the listener returns `false`, showing the intended
"not found ⇒ false" protocol elsewhere in the same function. -/
theorem off_unknown_event_returns_true :
    ((EventDispatcher.empty : EventDispatcher String Nat).off "e" 0).2 = true ∧
    ((((EventDispatcher.empty : EventDispatcher String Nat).on "e" 0).off "e" 0).1.off "e" 0).2
      = true ∧
    (((EventDispatcher.empty : EventDispatcher String Nat).on "e" 0).off "e" 1).2 = false := by
  refine ⟨rfl, ?_, ?_⟩ <;>
    simp [EventDispatcher.empty, EventDispatcher.on, EventDispatcher.off, mapSet, mapDelete,
      removeFirst]

/-- C3: (1) `on` preserves the no-empty-entry invariant, (2) `off`
preserves it, and (3) removing the last remaining listener of `e` deletes
`e`'s entry, after which `trigger e` takes the zero-listener path
(`([], some false)`).  `trigger` does not modify the map at all (it
returns no new state in the embedding). -/
theorem eventMap_noEmptyEntry_invariant :
    (∀ (d : EventDispatcher String Nat) (e : String) (cb : Nat),
        d.NoEmptyEntry → (d.on e cb).NoEmptyEntry) ∧
    (∀ (d : EventDispatcher String Nat) (e : String) (cb : Nat),
        d.NoEmptyEntry → (d.off e cb).1.NoEmptyEntry) ∧
    (∀ (d : EventDispatcher String Nat) (e : String) (cb : Nat) (x : Nat),
        d.eventMap e = some [cb] →
          (d.off e cb).1.eventMap e = none ∧
          (d.off e cb).1.trigger e x = ([], some false)) := by
  refine ⟨?_, ?_, ?_⟩
  · intro d e cb h e'
    cases hm : d.eventMap e with
    | none =>
      simp only [EventDispatcher.on, hm, mapSet]
      split
      · simp
      · exact h e'
    | some cbs =>
      simp only [EventDispatcher.on, hm, mapSet]
      split
      · simp
      · exact h e'
  · intro d e cb h e'
    cases hm : d.eventMap e with
    | none => simpa [EventDispatcher.off, hm] using h e'
    | some cbs =>
      cases hr : removeFirst cbs cb with
      | none => simpa [EventDispatcher.off, hm, hr] using h e'
      | some cbs' =>
        by_cases hnil : cbs' = []
        · simp only [EventDispatcher.off, hm, hr, hnil, if_pos, mapDelete]
          split
          · simp
          · exact h e'
        · simp only [EventDispatcher.off, hm, hr, hnil, if_neg, ite_false, mapSet]
          split
          · simp [hnil]
          · exact h e'
  · intro d e cb x hm
    have hr : removeFirst [cb] cb = some [] := by simp [removeFirst]
    constructor
    · simp [EventDispatcher.off, hm, hr, mapDelete]
    · simp [EventDispatcher.trigger, EventDispatcher.off, hm, hr, mapDelete]

/-- Witness for C3 at a dispatcher holding a single `"e"` listener. -/
theorem eventMap_noEmptyEntry_invariant_witness :
    ((EventDispatcher.empty : EventDispatcher String Nat).on "e" 0).NoEmptyEntry ∧
    (((EventDispatcher.empty : EventDispatcher String Nat).on "e" 0).eventMap "e" = some [0]) ∧
    (((EventDispatcher.empty : EventDispatcher String Nat).on "e" 0).on "f" 1).NoEmptyEntry ∧
    ((((EventDispatcher.empty : EventDispatcher String Nat).on "e" 0).off "e" 0).1.NoEmptyEntry) ∧
    ((((EventDispatcher.empty : EventDispatcher String Nat).on "e" 0).off "e" 0).1.eventMap "e"
        = none ∧
      (((EventDispatcher.empty : EventDispatcher String Nat).on "e" 0).off "e" 0).1.trigger "e"
        (5 : Nat) = ([], some false)) := by
  have hmap : ((EventDispatcher.empty : EventDispatcher String Nat).on "e" 0).eventMap "e"
      = some [0] := by
    simp [EventDispatcher.empty, EventDispatcher.on, mapSet]
  have hinv : ((EventDispatcher.empty : EventDispatcher String Nat).on "e" 0).NoEmptyEntry := by
    intro e'
    simp only [EventDispatcher.empty, EventDispatcher.on, mapSet]
    split <;> simp
  exact ⟨hinv, hmap,
    eventMap_noEmptyEntry_invariant.1 _ "f" 1 hinv,
    eventMap_noEmptyEntry_invariant.2.1 _ "e" 0 hinv,
    eventMap_noEmptyEntry_invariant.2.2 _ "e" 0 5 hmap⟩

/-- C4: from a state with no `e` entry, after `on(e, L1)` then `on(e, L2)`
a `trigger(e, det)` produces exactly the invocations
`[(L1, det), (L2, det)]`: `L1` before `L2`, each exactly once, each
receiving `det`.  Nothing requires `L1 ≠ L2`: with `L1 = L2` the same
listener appears twice, so it is invoked twice per trigger. -/
theorem on_on_trigger_invocations {E L D : Type} [DecidableEq E] [DecidableEq L]
    (d : EventDispatcher E L) (e : E) (L1 L2 : L) (det : D)
    (h : d.eventMap e = none) :
    ((d.on e L1).on e L2).trigger e det = ([(L1, det), (L2, det)], none) := by
  simp [EventDispatcher.on, EventDispatcher.trigger, h, mapSet]

/-- Witness for C4 on a fresh dispatcher (and, sharing the listener id,
the duplicate-registration reading). -/
theorem on_on_trigger_invocations_witness :
    ((EventDispatcher.empty : EventDispatcher String Nat).eventMap "e" = none) ∧
    (((EventDispatcher.empty : EventDispatcher String Nat).on "e" 1).on "e" 2).trigger "e"
      (7 : Nat) = ([(1, 7), (2, 7)], none) :=
  ⟨rfl, on_on_trigger_invocations EventDispatcher.empty "e" 1 2 7 rfl⟩

/-- C5: for any action outside the fixed handler table, `_onMessage`
performs no observable step — in particular it never invokes the reply
callback — returns `false`, and leaves the router state (hence the
dispatcher's listener map) unchanged.  The embedding of this path is a
total function: it raises no exception. -/
theorem onMessage_unknown_action (y : Yomichan) (href : String) (msg : Message)
    (h1 : msg.action ≠ "getUrl") (h2 : msg.action ≠ "optionsUpdate") :
    y.onMessage href msg = ⟨[], false, y⟩ := by
  simp [Yomichan.onMessage, messageHandlers, h1, h2]

/-- Witness for C5 at the spec's own example action `"doesNotExist"`. -/
theorem onMessage_unknown_action_witness :
    ("doesNotExist" ≠ "getUrl") ∧ ("doesNotExist" ≠ "optionsUpdate") ∧
    (Yomichan.mk EventDispatcher.empty).onMessage "http://u/" ⟨"doesNotExist", ⟨none⟩⟩ =
      ⟨[], false, Yomichan.mk EventDispatcher.empty⟩ :=
  ⟨by decide, by decide,
    onMessage_unknown_action (Yomichan.mk EventDispatcher.empty) "http://u/"
      ⟨"doesNotExist", ⟨none⟩⟩ (by decide) (by decide)⟩

/-- C6: an inbound `optionsUpdate` message triggers the local
`optionsUpdate` event synchronously: with `cbs` the registered listeners,
the trace is each listener invoked in registration order with the
`{source}` payload, followed by — hence strictly before — the reply
callback invocation carrying the handler's (`undefined`) result; the
router state is unchanged. -/
theorem onMessage_optionsUpdate_trace (y : Yomichan) (href : String) (params : MsgParams)
    (cbs : List Nat) (h : y.dispatcher.eventMap "optionsUpdate" = some cbs) :
    y.onMessage href ⟨"optionsUpdate", params⟩ =
      ⟨cbs.map (fun cb => RouterEvent.listenerInvoked cb (.optionsUpdateD params.source)) ++
        [RouterEvent.callbackInvoked .undefinedResult], false, y⟩ := by
  have hm : messageHandlers "optionsUpdate" = some HandlerTag.optionsUpdate := rfl
  simp [Yomichan.onMessage, hm, Yomichan.onMessageOptionsUpdate, EventDispatcher.trigger, h]

/-- Witness for C6 with one registered `optionsUpdate` listener and
`source = "S"`. -/
theorem onMessage_optionsUpdate_trace_witness :
    ((Yomichan.mk ((EventDispatcher.empty : EventDispatcher String Nat).on "optionsUpdate"
        3)).dispatcher.eventMap "optionsUpdate" = some [3]) ∧
    (Yomichan.mk ((EventDispatcher.empty : EventDispatcher String Nat).on "optionsUpdate"
        3)).onMessage "http://u/" ⟨"optionsUpdate", ⟨some "S"⟩⟩ =
      ⟨[RouterEvent.listenerInvoked 3 (.optionsUpdateD (some "S")),
        RouterEvent.callbackInvoked .undefinedResult], false,
        Yomichan.mk ((EventDispatcher.empty : EventDispatcher String Nat).on "optionsUpdate"
          3)⟩ := by
  have h : (Yomichan.mk ((EventDispatcher.empty : EventDispatcher String Nat).on "optionsUpdate"
      3)).dispatcher.eventMap "optionsUpdate" = some [3] := by
    simp [EventDispatcher.empty, EventDispatcher.on, mapSet]
  exact ⟨h, by simpa using onMessage_optionsUpdate_trace _ "http://u/" ⟨some "S"⟩ [3] h⟩

/-- C7: serialize / reconstruct / serialize is the identity on the
`{name, message, stack}` envelope: for every error-like value with the
three fields populated, `errorToJson (jsonToError (errorToJson e))` equals
`errorToJson e`. -/
theorem errorToJson_jsonToError_roundTrip (e : JsError) :
    errorToJson (jsonToError (errorToJson e)) = errorToJson e := rfl

/-- C8 counterexample: at `delay = 0` the fast path returns the bare
`Promise.resolve(resolveValue)`: no early-resolve / early-reject
properties are attached to the returned promise. -/
theorem promiseTimeout_zero_delay_no_controls :
    (promiseTimeout 0 (0 : Nat)).hasResolveProp = false ∧
    (promiseTimeout 0 (0 : Nat)).hasRejectProp = false :=
  ⟨rfl, rfl⟩

/-- C8 amended: for every strictly positive delay, `promiseTimeout`
returns a pending promise with the early-resolve and early-reject
operations exposed as the `resolve` / `reject` properties on it. -/
theorem promiseTimeout_positive_delay_exposes_controls {α : Type} (delay : Int) (v : α)
    (h : 0 < delay) :
    (promiseTimeout delay v).hasResolveProp = true ∧
    (promiseTimeout delay v).hasRejectProp = true ∧
    (promiseTimeout delay v).settledValue = none := by
  simp [promiseTimeout, not_le.mpr h]

/-- Witness for the amended C8 at `delay = 250`. -/
theorem promiseTimeout_positive_delay_exposes_controls_witness :
    (0 : Int) < 250 ∧
    ((promiseTimeout 250 (42 : Nat)).hasResolveProp = true ∧
      (promiseTimeout 250 (42 : Nat)).hasRejectProp = true ∧
      (promiseTimeout 250 (42 : Nat)).settledValue = none) :=
  ⟨by decide, promiseTimeout_positive_delay_exposes_controls 250 42 (by decide)⟩

/-- C9 counterexample: `null` is neither natively iterable nor array-like,
yet `toIterable(null)` fails with the `TypeError` thrown by the
`value[Symbol.iterator]` access, not with the "not convertible" `Error`
the claim names. -/
theorem toIterable_null_raises_typeError :
    nativelyIterable JSValue.vNull = false ∧ arrayLike JSValue.vNull = false ∧
    toIterable JSValue.vNull = .error (.typeError "Cannot read properties of null") ∧
    toIterable JSValue.vNull ≠ .error (.error "Could not convert to iterable") := by
  refine ⟨rfl, rfl, rfl, ?_⟩
  simp [toIterable]

/-- C9 amended: `toIterable` returns normally exactly on the natively
iterable or array-like inputs; every other input fails immediately — for
`null`/`undefined` with the runtime `TypeError` of the iterator-property
access, for everything else with the "not convertible" `Error`. -/
theorem toIterable_failure_classification :
    (∀ v : JSValue, returnsNormally v = (nativelyIterable v || arrayLike v)) ∧
    (∀ v : JSValue, nativelyIterable v = false → arrayLike v = false → isNullish v = false →
      toIterable v = .error (.error "Could not convert to iterable")) ∧
    (toIterable JSValue.vNull = .error (.typeError "Cannot read properties of null") ∧
      toIterable JSValue.vUndefined
        = .error (.typeError "Cannot read properties of undefined")) := by
  refine ⟨?_, ?_, rfl, rfl⟩
  · intro v
    rcases v with _ | _ | b | n | s | _ | (_ | (m | _ | _)) <;> rfl
  · intro v h1 h2 h3
    rcases v with _ | _ | b | n | s | _ | (_ | (m | _ | _)) <;>
      first
        | rfl
        | simp [nativelyIterable, arrayLike, isNullish] at h1 h2 h3

/-- Witness for the amended C9: an iterable object returns normally; the
number `5` (neither iterable nor array-like nor nullish) fails with the
"not convertible" error. -/
theorem toIterable_failure_classification_witness :
    (returnsNormally JSValue.vIterObj
        = (nativelyIterable JSValue.vIterObj || arrayLike JSValue.vIterObj)) ∧
    (nativelyIterable (JSValue.vNumber 5) = false ∧ arrayLike (JSValue.vNumber 5) = false ∧
      isNullish (JSValue.vNumber 5) = false ∧
      toIterable (JSValue.vNumber 5) = .error (.error "Could not convert to iterable")) :=
  ⟨toIterable_failure_classification.1 JSValue.vIterObj,
    rfl, rfl, rfl,
    toIterable_failure_classification.2.1 (JSValue.vNumber 5) rfl rfl rfl⟩

/-- C10: when the regex yields no match (the `exec` stream is empty on
this string), `stringReplaceAsync` resolves to `str` itself and the
replacer is never invoked. -/
theorem stringReplaceAsync_noMatch_identity (str : String)
    (replacer : ReplacerArgs → String) :
    stringReplaceAsync str [] replacer = (str, []) := rfl

end Core
